import Mathlib

/-!
Verification development for the game-bot's detection-fusion state machine and
adaptive calibration engine.  The definitions below are a shallow embedding of
`src/bsbot/calibration/manager.py`, `src/bsbot/skills/combat/controller.py` and
`src/bsbot/tracking/tile.py`: Python floats become rationals, machine integers
become `Int`/`Nat`, fallible steps become `Option`/`Except`, and the external
detector adapter (template matching / OCR) is abstracted as per-frame input
data.  Theorems settle the frozen specification claims against these models.
-/

namespace GameBot

/-- Normalised ROI rectangle `(rx, ry, rw, rh)` with components in `[0,1]`. -/
abbrev Roi := ℚ × ℚ × ℚ × ℚ

/-- Pixel bounding box `(x, y, w, h)` as produced by the detector adapter. -/
structure Box where
  x : ℤ
  y : ℤ
  w : ℤ
  h : ℤ
deriving DecidableEq, Repr

namespace Calibration

/-- Constant from manager.py: successes needed to mark a detector stable. -/
def STABLE_ENTER_STREAK : ℕ := 6

/-- Constant from manager.py: fallbacks needed to drop stability. -/
def STABLE_EXIT_FALLBACK : ℕ := 2

/-- Constant from manager.py: fallbacks needed before a capture is allowed. -/
def FALLBACK_CAPTURE_MIN_STREAK : ℕ := 2

/-- Constant from manager.py: seconds during which a recent success suppresses capture. -/
def RECENT_SUCCESS_WINDOW : ℚ := 30

/-- The `last_success` record kept per detector key. -/
structure LastSuccess where
  roi : Option Roi
  box : Option Box
  score : ℚ
  ts : ℚ
deriving DecidableEq, Repr

/-- The `last_capture_signature` record kept per detector key. -/
structure CaptureSig where
  centroid : Option (ℚ × ℚ)
  confidence : ℚ
  time : ℚ
deriving DecidableEq, Repr

/-- The `_last_result` entry for a detector key. -/
inductive LastResult
  | empty
  | data (score : Option ℚ) (roi : Option Roi)
  | failure (msg : String)
deriving DecidableEq, Repr

/-- Per-detector-key mutable state of `CalibrationManager` (one entry of each
of the `_overrides`, `_success_streak`, ... dictionaries). -/
structure CalibKeyState where
  override_roi : Option Roi
  success_streak : ℕ
  fallback_streak : ℕ
  no_match_streak : ℕ
  pending_jobs : ℤ
  last_capture_time : ℚ
  last_capture_sig : Option CaptureSig
  last_success : Option LastSuccess
  stable : Bool
  stable_since : ℚ
  last_result : LastResult
deriving DecidableEq, Repr

/-- The all-zero/None state installed by `CalibrationManager.__init__`. -/
def CalibKeyState.init : CalibKeyState :=
  { override_roi := none
    success_streak := 0
    fallback_streak := 0
    no_match_streak := 0
    pending_jobs := 0
    last_capture_time := 0
    last_capture_sig := none
    last_success := none
    stable := false
    stable_since := 0
    last_result := .empty }

/-- `CalibrationManager.template_success`: increment the success streak, zero the
other streaks, record `last_success` when a roi or box is supplied, and maintain
the stable flag.  The returned Bool is whether a STABLE event was emitted. -/
def template_success (s : CalibKeyState) (score : ℚ) (roi : Option Roi)
    (box : Option Box) (now : ℚ) : CalibKeyState × Bool :=
  let streak := s.success_streak + 1
  let s1 := { s with success_streak := streak, fallback_streak := 0, no_match_streak := 0 }
  let s2 :=
    if roi.isSome ∨ box.isSome then
      { s1 with last_success := some { roi := roi, box := box, score := score, ts := now } }
    else s1
  let was_stable := s2.stable
  if streak ≥ STABLE_ENTER_STREAK then
    ({ s2 with stable := true, stable_since := now }, !was_stable)
  else if was_stable then
    ({ s2 with stable := false, stable_since := 0 }, false)
  else
    (s2, false)

/-- Outcome of a `template_fallback` call: returned immediately (template path
absent), skipped with a reason code, or captured (frame persisted, pending job
incremented, sweep submitted). -/
inductive FallbackOutcome
  | noop
  | skip (reason : String)
  | capture
deriving DecidableEq, Repr

/-- Centroid of a hint box, as computed at the top of `template_fallback`. -/
def centroidOf (b : Box) : ℚ × ℚ :=
  ((b.x : ℚ) + (b.w : ℚ) / 2, (b.y : ℚ) + (b.h : ℚ) / 2)

/-- `CalibrationManager.template_fallback` (manager.py lines 142-299), modelled
as a pure state transformer.  The filesystem persistence, event emission and
job submission on the capture path are represented by the `capture` outcome;
`cooldown` is the manager's `capture_cooldown` parameter (default 25 s). -/
def template_fallback (cooldown : ℚ) (s : CalibKeyState)
    (template_path : Option String) (hint_box : Option Box)
    (confidence : ℚ) (now : ℚ) : CalibKeyState × FallbackOutcome :=
  match template_path with
  | none => (s, .noop)
  | some _ =>
    let centroid := hint_box.map centroidOf
    let s1 := { s with success_streak := 0, fallback_streak := s.fallback_streak + 1 }
    let fb := s1.fallback_streak
    let last_success_ts := match s1.last_success with
      | some ls => ls.ts
      | none => 0
    let was_stable := s1.stable
    let s2 :=
      if was_stable ∧ fb ≥ STABLE_EXIT_FALLBACK then
        { s1 with stable := false, stable_since := 0 }
      else s1
    let stable_active := s2.stable
    if s2.pending_jobs ≠ 0 then
      (s2, .skip "job_in_progress")
    else if stable_active ∧ fb < STABLE_EXIT_FALLBACK then
      (s2, .skip "stable_single_fallback")
    else if fb < FALLBACK_CAPTURE_MIN_STREAK then
      (s2, .skip "fallback_streak")
    else if now - s2.last_capture_time < cooldown ∧ fb < 3 then
      (s2, .skip "cooldown")
    else if last_success_ts ≠ 0 ∧ now - last_success_ts ≤ RECENT_SUCCESS_WINDOW then
      (s2, .skip "recent_success")
    else
      let duplicate : Bool :=
        match centroid, s2.last_capture_sig with
        | some (cx, cy), some sig =>
          match sig.centroid with
          | some (px, py) =>
            decide (|px - cx| < 6) && decide (|py - cy| < 6) &&
              decide (|sig.confidence - confidence| < 5/100)
          | none => false
        | _, _ => false
      if duplicate then
        (s2, .skip "duplicate")
      else
        ({ s2 with
            last_capture_time := now
            pending_jobs := s2.pending_jobs + 1
            last_capture_sig := some { centroid := centroid, confidence := confidence, time := now } },
         .capture)

/-- Result record of a successful ROI sweep (`CalibrationResult` dataclass). -/
structure CalibrationResult where
  roi : Roi
  score : ℚ
deriving DecidableEq, Repr

/-- One grid cell considered by `_sweep_roi`: its normalised ROI and the list
of match scores `detect_template_multi` returned inside it (empty when the
cell was skipped because its pixel rectangle did not fit, or no match cleared
the 0.7 detector threshold). -/
structure Cell where
  roi : Roi
  scores : List ℚ
deriving DecidableEq, Repr

/-- Maximum of a list of rationals, `none` on the empty list (Python `max`). -/
def listMax : List ℚ → Option ℚ
  | [] => none
  | x :: xs => some (xs.foldl max x)

/-- One step of the best-cell fold in `_sweep_roi`: a cell with no score is
skipped, otherwise its best score replaces the accumulator when strictly
better. -/
def sweep_step (acc : ℚ × Option Roi) (c : Cell) : ℚ × Option Roi :=
  match listMax c.scores with
  | none => acc
  | some m => if m > acc.1 then (m, some c.roi) else acc

/-- The best-cell fold at the heart of `_sweep_roi`: starting from
`best_score = 0.0`, `best_roi = None`, keep the cell with the highest best
match score. -/
def sweep_fold (cells : List Cell) : ℚ × Option Roi :=
  cells.foldl sweep_step (0, none)

/-- `CalibrationManager._sweep_roi` (decision part): return an accepted result
exactly when a best cell exists and its score clears the acceptance
threshold. -/
def sweep_roi (cells : List Cell) (acceptance : ℚ) : Option CalibrationResult :=
  let best := sweep_fold cells
  match best.2 with
  | some r => if best.1 ≥ acceptance then some { roi := r, score := best.1 } else none
  | none => none

/-- `CalibrationManager._current_acceptance_threshold`.  The `key` argument is
kept (and ignored) exactly as in the source. -/
def current_acceptance_threshold (key : String) (no_match_streak : ℕ)
    (has_override : Bool) : ℚ :=
  let base : ℚ := if has_override then 90/100 else 88/100
  let drop : ℚ := min (5/100) (((max 0 ((no_match_streak : ℤ) - 1) : ℤ) : ℚ) * (2/100))
  let lower : ℚ := if has_override then 85/100 else 84/100
  max lower (base - drop)

/-- Best grid-cell score of a sweep, written independently of the fold:
the maximum over all cells of each cell's best match score, `0` when no cell
produced any score. -/
def sweep_best_score (cells : List Cell) : ℚ :=
  (cells.filterMap (fun c => listMax c.scores)).foldl max 0

/-- Classified outcome of one `_run_calibration` job. -/
inductive JobOutcome
  | applied (score : ℚ) (roi : Roi)
  | noMatch
  | failure (msg : String)
deriving DecidableEq, Repr

/-- Inputs of one `_run_calibration` job.  `assets_ok` models whether the saved
frame and the template could be re-read (`cv2.imread` not `None`);
`sweep_cells` is the grid sweep's detector behaviour, with `Except.error`
standing for an exception raised during scoring.  `no_match_streak` and
`has_override` are the snapshots captured when the job was submitted. -/
structure CalibJobInput where
  assets_ok : Bool
  sweep_cells : Except String (List Cell)
  no_match_streak : ℕ
  has_override : Bool
deriving Repr

/-- `CalibrationManager._run_calibration` as a pure state transformer over the
per-key calibration state.  The `finally` block's pending-job decrement
(`max(0, pending - 1)`) is applied in every exit path. -/
def run_calibration (key : String) (s : CalibKeyState) (inp : CalibJobInput) :
    CalibKeyState × JobOutcome :=
  let finish := fun (s' : CalibKeyState) (r : JobOutcome) =>
    ({ s' with pending_jobs := max 0 (s'.pending_jobs - 1) }, r)
  if ¬ inp.assets_ok then
    let msg := "failed to load calibration assets"
    finish { s with last_result := .failure msg } (.failure msg)
  else
    let acceptance := current_acceptance_threshold key inp.no_match_streak inp.has_override
    match inp.sweep_cells with
    | .error e => finish { s with last_result := .failure e } (.failure e)
    | .ok cells =>
      match sweep_roi cells acceptance with
      | some res =>
        finish
          { s with
              override_roi := some res.roi
              last_result := .data (some res.score) (some res.roi)
              no_match_streak := 0
              fallback_streak := 0 }
          (.applied res.score res.roi)
      | none =>
        finish
          { s with
              last_result := .data none none
              no_match_streak := s.no_match_streak + 1 }
          .noMatch

/-- Claim-side bookkeeping of a fallback event: zero the success streak,
increment the fallback streak, and drop stability when the streak reaches the
exit threshold while stable. -/
def fallback_bookkeep (s : CalibKeyState) : CalibKeyState :=
  let s1 := { s with success_streak := 0, fallback_streak := s.fallback_streak + 1 }
  if s1.stable ∧ s1.fallback_streak ≥ STABLE_EXIT_FALLBACK then
    { s1 with stable := false, stable_since := 0 }
  else s1

/-- Timestamp of the last confirmed success recorded for a key (0 if none). -/
def last_success_ts_of (s : CalibKeyState) : ℚ :=
  match s.last_success with
  | some ls => ls.ts
  | none => 0

/-- Duplicate-capture test of skip condition 6: hint centroid within 6 px and
confidence within 0.05 of the last triggered capture's signature. -/
def duplicate_capture (s : CalibKeyState) (hint_box : Option Box)
    (confidence : ℚ) : Bool :=
  match hint_box.map centroidOf, s.last_capture_sig with
  | some (cx, cy), some sig =>
    match sig.centroid with
    | some (px, py) =>
      decide (|px - cx| < 6) && decide (|py - cy| < 6) &&
        decide (|sig.confidence - confidence| < 5/100)
    | none => false
  | _, _ => false

/-- Claim-side skip cascade: the six skip conditions of the specification in
its stated priority order, first match wins, evaluated against the
pre-bookkeeping state and the incremented fallback streak. -/
def skip_reason_spec (cooldown : ℚ) (s : CalibKeyState) (hint_box : Option Box)
    (confidence now : ℚ) : Option String :=
  let fb := s.fallback_streak + 1
  if s.pending_jobs ≠ 0 then some "job_in_progress"
  else if s.stable ∧ fb < STABLE_EXIT_FALLBACK then some "stable_single_fallback"
  else if fb < FALLBACK_CAPTURE_MIN_STREAK then some "fallback_streak"
  else if now - s.last_capture_time < cooldown ∧ fb < 3 then some "cooldown"
  else if last_success_ts_of s ≠ 0 ∧ now - last_success_ts_of s ≤ RECENT_SUCCESS_WINDOW then
    some "recent_success"
  else if duplicate_capture s hint_box confidence then some "duplicate"
  else none

/-- Claim-side model of `template_fallback` with a configured template path:
book-keep the streak counters, then either skip with the first matching
reason (changing no further state) or capture (stamp the capture time and
signature and increment the pending-job count). -/
def template_fallback_spec (cooldown : ℚ) (s : CalibKeyState)
    (hint_box : Option Box) (confidence now : ℚ) : CalibKeyState × FallbackOutcome :=
  let s2 := fallback_bookkeep s
  match skip_reason_spec cooldown s hint_box confidence now with
  | some r => (s2, .skip r)
  | none =>
    ({ s2 with
        last_capture_time := now
        pending_jobs := s2.pending_jobs + 1
        last_capture_sig := some
          { centroid := hint_box.map centroidOf, confidence := confidence, time := now } },
     .capture)

/-- Claim-side model of a calibration job: on acceptance (best grid-cell score
meets the threshold) persist the ROI and zero the no-match/fallback streaks;
on a miss leave the override untouched and increment the no-match streak; on
an exception leave override and no-match streak unchanged and record the
error; always decrement the pending-job count with a floor at zero. -/
def run_calibration_spec (key : String) (s : CalibKeyState) (inp : CalibJobInput) :
    CalibKeyState × JobOutcome :=
  let dec := fun (s' : CalibKeyState) =>
    { s' with pending_jobs := max 0 (s'.pending_jobs - 1) }
  if ¬ inp.assets_ok then
    let msg := "failed to load calibration assets"
    (dec { s with last_result := .failure msg }, .failure msg)
  else
    match inp.sweep_cells with
    | .error e => (dec { s with last_result := .failure e }, .failure e)
    | .ok cells =>
      let acceptance := current_acceptance_threshold key inp.no_match_streak inp.has_override
      if sweep_best_score cells ≥ acceptance then
        match (sweep_fold cells).2 with
        | some r =>
          (dec
            { s with
                override_roi := some r
                last_result := .data (some (sweep_best_score cells)) (some r)
                no_match_streak := 0
                fallback_streak := 0 },
           .applied (sweep_best_score cells) r)
        | none =>
          -- unreachable: a best score above the (positive) threshold always
          -- comes with a best cell
          (dec { s with last_result := .data none none, no_match_streak := s.no_match_streak + 1 },
           .noMatch)
      else
        (dec { s with last_result := .data none none, no_match_streak := s.no_match_streak + 1 },
         .noMatch)

/-- Trace state for the stability counterexample: six template successes. -/
def c3_after_successes : CalibKeyState :=
  (List.range 6).foldl (fun s _ => (template_success s (9/10) none none 100).1) .init

/-- Trace state: one fallback (with a configured template path) after the six
successes. -/
def c3_after_fallback : CalibKeyState :=
  (template_fallback 25 c3_after_successes (some "templates/attack.png") none (1/2) 200).1

/-- Trace state: one further template success after the single fallback. -/
def c3_after_late_success : CalibKeyState :=
  (template_success c3_after_fallback (9/10) none none 300).1

end Calibration

namespace Combat

/-- The combat phase state machine's states (`self._state` strings). -/
inductive CState
  | scan
  | primeTarget
  | attackPanel
  | prepare
  | weapon
  | battleLoop
deriving DecidableEq, Repr

/-- Detection method configured/resolved for the nameplate (`status.method`). -/
inductive Method
  | auto
  | template
  | ocr
  | templateFallback
deriving DecidableEq, Repr

/-- Observable records emitted during a frame that the claims talk about:
clicks (`runtime.emit_click` with a label) and the `battle_end` event. -/
inductive Emit
  | click (label : String)
  | battleEnd
deriving DecidableEq, Repr

/-- Calibration reports sent from the frame loop to the manager. -/
inductive CalibEvent
  | success (key : String) (conf : ℚ)
  | fallback (key : String) (conf : ℚ)
deriving DecidableEq, Repr

/-- The slice of `CombatController` state that the per-frame logic reads and
writes, plus the configuration fields feeding it.  `conf_hist_nameplate` holds
the rolling nameplate confidences newest-first (deque of maxlen 6). -/
structure CtrlState where
  state : CState
  absent_counter : ℕ
  locked_box : Option Box
  target_lock_until : ℚ
  conf_hist_nameplate : List ℚ
  last_nameplate_conf : ℚ
  click_attempts_prime : ℕ
  click_attempts_attack : ℕ
  enable_tile_tracker : Bool
  pfx_word : Bool
  template_path_set : Bool
  attack_template_path : Option String
  method0 : Method
deriving DecidableEq, Repr

/-- Controller state as constructed by `__init__`/`on_start` (state `Scan`,
counters zero, no lock, `_enable_tile_tracker = False`); the configuration
fields are parameters because `_apply_params` may set them. -/
def CtrlState.init (pfx_word template_path_set : Bool)
    (attack_template_path : Option String) (method0 : Method) : CtrlState :=
  { state := .scan
    absent_counter := 0
    locked_box := none
    target_lock_until := 0
    conf_hist_nameplate := []
    last_nameplate_conf := 0
    click_attempts_prime := 0
    click_attempts_attack := 0
    enable_tile_tracker := false
    pfx_word := pfx_word
    template_path_set := template_path_set
    attack_template_path := attack_template_path
    method0 := method0 }

/-- Target-lock grace window in seconds (`self._target_lock_grace = 1.2`). -/
def TARGET_LOCK_GRACE : ℚ := 12/10

/-- Minimum nameplate confidence (`self._min_nameplate_conf = 0.35`). -/
def MIN_NAMEPLATE_CONF : ℚ := 35/100

/-- Push a confidence onto a deque of maxlen 6 kept newest-first. -/
def pushHist (c : ℚ) (hist : List ℚ) : List ℚ :=
  (c :: hist).take 6

/-- Detector-adapter responses for one frame.  Bounding boxes are frame-local
pixels; template results inside the calibrated nameplate ROI are already
offset back to frame coordinates as in the source (empty when the ROI did not
fit the template or nothing matched). -/
structure FrameIn where
  now : ℚ
  roi_origin : ℤ × ℤ
  tpl_loaded : Bool
  tpl_roi_boxes : List Box
  tpl_roi_scores : List ℚ
  tpl_full_boxes : List Box
  tpl_full_scores : List ℚ
  ocr_name_boxes : List Box
  ocr_name_conf : ℚ
  pfx_boxes : List Box
  pfx_conf : ℚ
  tracker_attack_boxes : List Box
  tracker_attack_conf : ℚ
  tracker_attack_source : Option String
deriving Repr

/-- Nameplate detection (controller.py lines 308-361): template first inside
the calibrated ROI then over the whole frame, OCR fallback otherwise.
Returns the boxes, best confidence, resolved method, and the calibration
report the block sends. -/
def detect_nameplate (s : CtrlState) (f : FrameIn) :
    List Box × ℚ × Method × Option CalibEvent :=
  let viaTemplate :=
    (s.method0 = .auto ∨ s.method0 = .template) ∧ s.template_path_set ∧ f.tpl_loaded
  let (boxes, conf, method, ev) :=
    if viaTemplate then
      let (tb, ts) :=
        if f.tpl_roi_boxes ≠ [] then (f.tpl_roi_boxes, f.tpl_roi_scores)
        else (f.tpl_full_boxes, f.tpl_full_scores)
      if tb ≠ [] then
        let best := match Calibration.listMax ts with
          | some m => m
          | none => 0
        (tb, best, Method.template, some (CalibEvent.success "nameplate" best))
      else ([], 0, s.method0, none)
    else ([], 0, s.method0, none)
  if boxes = [] ∧ (method = .auto ∨ method = .ocr ∨ method = .templateFallback) then
    if f.ocr_name_boxes ≠ [] then
      let best :=
        if f.ocr_name_boxes.length > 1 then 8/10
        else if f.ocr_name_conf ≤ 1/100 then 1/2
        else f.ocr_name_conf
      let ev' :=
        if s.template_path_set ∧ best ≥ MIN_NAMEPLATE_CONF then
          some (CalibEvent.fallback "nameplate" best)
        else none
      (f.ocr_name_boxes, best, Method.ocr, ev')
    else (boxes, conf, method, ev)
  else (boxes, conf, method, ev)

/-- Merge the nameplate and name-prefix boxes into one bounding box
(controller.py lines 412-418). -/
def mergeBoxes (b p : Box) : Box :=
  let nx0 := min p.x b.x
  let ny0 := min p.y b.y
  let nx1 := max (p.x + p.w) (b.x + b.w)
  let ny1 := max (p.y + p.h) (b.y + b.h)
  { x := nx0, y := ny0, w := nx1 - nx0, h := ny1 - ny0 }

/-- Intermediate fusion result after the merge / lock-hold / expiry block. -/
structure FuseMid where
  locked_box : Option Box
  target_lock_until : ℚ
  boxes : List Box
  best_conf : ℚ
  lock_active : Bool
  pfx_present : Bool
deriving Repr

/-- First fusion block (controller.py lines 407-437): merge nameplate+prefix
and arm the lock, or reuse the locked box while the lock is active, or clear
stale lock state. -/
def fuse_merge (s : CtrlState) (now : ℚ) (raw : List Box) (conf0 : ℚ)
    (pfx_boxes : List Box) (pfx_conf : ℚ) : FuseMid :=
  let pfx_present := pfx_boxes ≠ []
  let lock_active := now < s.target_lock_until
  if s.pfx_word ∧ pfx_present ∧ raw ≠ [] then
    let combined := mergeBoxes (raw.headD ⟨0, 0, 0, 0⟩) (pfx_boxes.headD ⟨0, 0, 0, 0⟩)
    { locked_box := some combined
      target_lock_until := now + TARGET_LOCK_GRACE
      boxes := [combined]
      best_conf := if conf0 > 0 ∧ pfx_conf > 0 then min conf0 pfx_conf else max conf0 pfx_conf
      lock_active := true
      pfx_present := pfx_present }
  else if lock_active ∧ s.locked_box.isSome then
    { locked_box := s.locked_box
      target_lock_until := s.target_lock_until
      boxes := if raw = [] then [s.locked_box.getD ⟨0, 0, 0, 0⟩] else raw
      best_conf :=
        if conf0 ≤ 0 then
          match s.conf_hist_nameplate.head? with
          | some c => c
          | none => s.last_nameplate_conf
        else conf0
      lock_active := lock_active
      pfx_present := pfx_present }
  else
    { locked_box := if ¬ pfx_present ∧ conf0 < MIN_NAMEPLATE_CONF then none else s.locked_box
      target_lock_until := if raw = [] then 0 else s.target_lock_until
      boxes := raw
      best_conf := conf0
      lock_active := if raw = [] then false else lock_active
      pfx_present := pfx_present }

/-- Second fusion block (controller.py lines 439-443): arm an OCR lock without
the prefix when the fused confidence clears `min_nameplate_conf + 0.1`. -/
def fuse_ocr_lock (now : ℚ) (m : FuseMid) : FuseMid :=
  if ¬ m.lock_active ∧ m.best_conf ≥ MIN_NAMEPLATE_CONF + 1/10 then
    { m with
        locked_box := m.boxes.head?
        target_lock_until := now + TARGET_LOCK_GRACE
        lock_active := true }
  else m

/-- Full fusion of nameplate, prefix and lock state for one frame: the merged
block, the OCR-lock block, the rolling-history update and the `target_ready`
predicate (controller.py lines 407-454). -/
def fuse (s : CtrlState) (now : ℚ) (raw : List Box) (conf0 : ℚ)
    (pfx_boxes : List Box) (pfx_conf : ℚ) :
    CtrlState × List Box × ℚ × Bool × Bool :=
  let m := fuse_ocr_lock now (fuse_merge s now raw conf0 pfx_boxes pfx_conf)
  let s' := { s with
      locked_box := m.locked_box
      target_lock_until := m.target_lock_until }
  let s'' :=
    if raw ≠ [] then
      { s' with
          conf_hist_nameplate := pushHist m.best_conf s'.conf_hist_nameplate
          last_nameplate_conf := m.best_conf }
    else s'
  let target_ready :=
    m.boxes ≠ [] ∧ m.best_conf ≥ MIN_NAMEPLATE_CONF ∧ (m.pfx_present ∨ m.lock_active)
  (s'', m.boxes, m.best_conf, m.lock_active, decide target_ready)

/-- Inputs of the attack-button resolution chain that runs inside the
tile-tracker branch (controller.py lines 519-577).  Adapter responses are
given per region; `tpl_context_boxes`/`tpl_context_scores` record what a
template match inside the context-menu rectangle WOULD return — the claimed
first step, which the source never executes (it is ignored by
`resolve_attack` and consulted only by the claim-side chain). -/
structure AttackIn where
  context_rect : Option (ℤ × ℤ × ℤ × ℤ)
  roi_w : ℤ
  roi_h : ℤ
  ocr_context_boxes : List Box
  ocr_context_conf : ℚ
  tpl_context_boxes : List Box
  tpl_context_scores : List ℚ
  attack_template_loaded : Bool
  panel_nonempty : Bool
  panel_origin : ℤ × ℤ
  tpl_panel_boxes : List Box
  tpl_panel_scores : List ℚ
  tpl_frame_boxes : List Box
  tpl_frame_scores : List ℚ
  ocr_panel_boxes : List Box
  ocr_panel_conf : ℚ
  ocr_global_boxes : List Box
  ocr_global_conf : ℚ
deriving Repr

/-- Offset region-local boxes back to frame coordinates. -/
def offsetBoxes (ox oy : ℤ) (bs : List Box) : List Box :=
  bs.map fun b => { b with x := b.x + ox, y := b.y + oy }

/-- A resolved attack hit: boxes, confidence and source label. -/
abbrev AttackHit := List Box × ℚ × Option String

/-- The size/position filter applied to whole-frame OCR attack candidates
(controller.py lines 566-573): reject boxes shorter than 15 px or narrower
than 60 px or within the top 15 % of the ROI. -/
def global_filtered (inp : AttackIn) : List Box :=
  inp.ocr_global_boxes.filter fun b =>
    decide (b.h ≥ 15) && decide (b.w ≥ 60) && decide (b.y ≥ ⌊(15/100 : ℚ) * inp.roi_h⌋)

/-- Attack step 1 (controller.py lines 519-534): OCR for the attack word
inside the clipped context-menu rectangle. -/
def attack_step_ocr_context (inp : AttackIn) : AttackHit :=
  match inp.context_rect with
  | some (ax, ay, aw, ah) =>
    let ax0 := max 0 ax
    let ay0 := max 0 ay
    let ax1 := min inp.roi_w (ax + aw)
    let ay1 := min inp.roi_h (ay + ah)
    if ax1 > ax0 ∧ ay1 > ay0 ∧ inp.ocr_context_boxes ≠ [] then
      (offsetBoxes ax0 ay0 inp.ocr_context_boxes,
       if inp.ocr_context_conf > 1/100 then inp.ocr_context_conf else 6/10,
       some "ocr_context")
    else ([], 0, none)
  | none => ([], 0, none)

/-- Attack step 2 (controller.py lines 535-553, still inside the
context-rectangle branch): template match over the attack panel ROI and then
the whole frame, attempted only while empty-handed and with a loaded attack
template. -/
def attack_step_template (inp : AttackIn) (prev : AttackHit) : AttackHit :=
  if prev.1 = [] ∧ inp.context_rect.isSome ∧ inp.attack_template_loaded then
    if inp.panel_nonempty ∧ inp.tpl_panel_boxes ≠ [] then
      (offsetBoxes inp.panel_origin.1 inp.panel_origin.2 inp.tpl_panel_boxes,
       match Calibration.listMax inp.tpl_panel_scores with
       | some m => m
       | none => 7/10,
       some "template_roi")
    else if inp.tpl_frame_boxes ≠ [] then
      (inp.tpl_frame_boxes,
       match Calibration.listMax inp.tpl_frame_scores with
       | some m => m
       | none => 7/10,
       some "template")
    else prev
  else prev

/-- Attack step 3 (controller.py lines 554-563): OCR inside the static attack
panel ROI while still empty-handed. -/
def attack_step_ocr_panel (inp : AttackIn) (prev : AttackHit) : AttackHit :=
  if prev.1 = [] ∧ inp.ocr_panel_boxes ≠ [] then
    (offsetBoxes inp.panel_origin.1 inp.panel_origin.2 inp.ocr_panel_boxes,
     if inp.ocr_panel_conf > 1/100 then inp.ocr_panel_conf else 6/10,
     some "ocr_panel")
  else prev

/-- Attack step 4 (controller.py lines 564-577): filtered OCR over the whole
frame while still empty-handed. -/
def attack_step_ocr_global (inp : AttackIn) (prev : AttackHit) : AttackHit :=
  if prev.1 = [] ∧ global_filtered inp ≠ [] then
    (global_filtered inp,
     if inp.ocr_global_conf > 1/100 then inp.ocr_global_conf else 6/10,
     some "ocr_global")
  else prev

/-- The attack-button resolution chain exactly as ordered in the source:
OCR inside the clipped context-menu rectangle; then (still only when a
context rectangle exists) template match inside the attack panel ROI and then
over the whole frame; then OCR inside the attack panel ROI; then OCR over the
whole frame with size/position filters. -/
def resolve_attack (inp : AttackIn) : AttackHit :=
  attack_step_ocr_global inp
    (attack_step_ocr_panel inp
      (attack_step_template inp
        (attack_step_ocr_context inp)))

/-- Python's `str.startswith`, expressed over the character lists. -/
def str_starts_with (s pat : String) : Bool :=
  pat.toList.isPrefixOf s.toList

/-- Calibration report for the resolved attack hit (controller.py lines
596-622): a template-sourced hit reports a success for key "attack", an
OCR-sourced hit reports a fallback when an attack template path is
configured. -/
def attack_calib_report (attack_boxes : List Box) (attack_source : Option String)
    (attack_conf : ℚ) (has_attack_template_path : Bool) : Option CalibEvent :=
  match attack_source with
  | some src =>
    if attack_boxes ≠ [] ∧ str_starts_with src "template" then
      some (.success "attack" attack_conf)
    else if attack_boxes ≠ [] ∧ str_starts_with src "ocr" ∧ has_attack_template_path then
      some (.fallback "attack" attack_conf)
    else none
  | none => none

/-- Detection inputs consumed by `_advance_state` for one frame. -/
structure AdvIn where
  target_ready : Bool
  attack_boxes : Bool
  prepare_boxes : Bool
  digit_boxes : Bool
  special_attacks_present : Bool
deriving DecidableEq, Repr

/-- `CombatController._transition`: set the new state, reset the absence
counter unless entering BattleLoop, and clear the lock and click attempts on
returning to Scan. -/
def transitionTo (s : CtrlState) (new : CState) : CtrlState :=
  let s1 := { s with state := new }
  let s2 := if new ≠ CState.battleLoop then { s1 with absent_counter := 0 } else s1
  if new = CState.scan then
    { s2 with
        target_lock_until := 0
        locked_box := none
        click_attempts_prime := 0
        click_attempts_attack := 0 }
  else s2

/-- `CombatController._advance_state` (controller.py lines 879-991): the
per-state transition logic, emitting clicks and the `battle_end` event.  The
hover-tile emission is omitted because no code path ever plans a click with
the `hover_tile` label. -/
def advance_state (s : CtrlState) (inp : AdvIn) : CtrlState × List Emit :=
  match s.state with
  | .scan =>
    if inp.target_ready then
      let s1 := { s with click_attempts_prime := s.click_attempts_prime + 1 }
      (transitionTo s1 .primeTarget, [.click "prime_nameplate"])
    else (s, [])
  | .primeTarget =>
    if inp.attack_boxes then
      let s1 := { s with click_attempts_attack := s.click_attempts_attack + 1 }
      (transitionTo s1 .attackPanel, [.click "attack_button"])
    else if inp.target_ready then
      ({ s with click_attempts_prime := s.click_attempts_prime + 1 },
       [.click "prime_nameplate"])
    else
      (transitionTo s .scan, [])
  | .attackPanel =>
    if inp.attack_boxes then
      ({ s with click_attempts_attack := s.click_attempts_attack + 1 },
       [.click "attack_button"])
    else if inp.prepare_boxes then
      (transitionTo s .prepare, [])
    else
      (transitionTo s .scan, [])
  | .prepare =>
    if inp.digit_boxes then
      (transitionTo s .weapon, [.click "weapon_1"])
    else if ¬ inp.prepare_boxes then
      (transitionTo s .scan, [])
    else (s, [])
  | .weapon =>
    if inp.special_attacks_present then
      (transitionTo s .battleLoop, [])
    else if ¬ inp.digit_boxes then
      (transitionTo s .scan, [])
    else (s, [])
  | .battleLoop =>
    if inp.special_attacks_present then
      ({ s with absent_counter := 0 }, [])
    else
      let a := s.absent_counter + 1
      if a ≥ 6 then
        (transitionTo { s with absent_counter := a } .scan, [.battleEnd])
      else
        ({ s with absent_counter := a }, [])

/-- Run `advance_state` over a list of per-frame detection inputs,
concatenating the emitted records. -/
def run_adv (s : CtrlState) : List AdvIn → CtrlState × List Emit
  | [] => (s, [])
  | i :: is =>
    let (s1, e) := advance_state s i
    let (s2, es) := run_adv s1 is
    (s2, e ++ es)

/-- Trace of the machine states visited by `run_adv`, starting state
included. -/
def adv_trace (s : CtrlState) : List AdvIn → List CState
  | [] => [s.state]
  | i :: is => s.state :: adv_trace (advance_state s i).1 is

/-- A planned click: absolute coordinates plus label. -/
structure Planned where
  x : ℤ
  y : ℤ
  label : String
deriving DecidableEq, Repr

/-- Geometry of the prime-nameplate click (controller.py lines 623-627). -/
def prime_click (roi_origin : ℤ × ℤ) (b : Box) : Planned :=
  { x := roi_origin.1 + b.x + b.w / 2
    y := roi_origin.2 + b.y + ⌊(14/10 : ℚ) * b.h⌋
    label := "prime_nameplate" }

/-- Geometry of the attack-button click (`_adjust_attack_click`, simplified to
box centre; the OCR hitbox derivation only moves the point, never the
label). -/
def attack_click (roi_origin : ℤ × ℤ) (b : Box) : Planned :=
  { x := roi_origin.1 + b.x + b.w / 2
    y := roi_origin.2 + b.y + b.h / 2
    label := "attack_button" }

/-- Per-frame observable outputs assembled by `process_frame`. -/
structure FrameOut where
  found : Bool
  boxes : List Box
  confidence : ℚ
  method : Method
  lock_active : Bool
  attack_found : Bool
  attack_boxes : List Box
  attack_conf : ℚ
  attack_source : Option String
  planned_clicks : List Planned
  emits : List Emit
  calib_events : List CalibEvent
deriving Repr

/-- Click planning for one frame (controller.py lines 623-631): a
prime-nameplate click when the target is ready, and an attack-button click
when an attack box was resolved. -/
def plan_clicks (roi_origin : ℤ × ℤ) (target_ready : Bool) (boxes : List Box)
    (attack_boxes : List Box) : List Planned :=
  let planned1 :=
    if target_ready ∧ boxes ≠ [] then
      [prime_click roi_origin (boxes.headD ⟨0, 0, 0, 0⟩)]
    else []
  if attack_boxes ≠ [] then
    planned1 ++ [attack_click roi_origin (attack_boxes.headD ⟨0, 0, 0, 0⟩)]
  else planned1

/-- The attack-hit data the frame uses: the tracker-branch outcome when the
tile tracker is enabled, nothing otherwise (controller.py lines 461-594 gate
all attack detection behind `self._enable_tile_tracker`). -/
def frame_attack_hit (s1 : CtrlState) (f : FrameIn) : AttackHit :=
  if s1.enable_tile_tracker then
    (f.tracker_attack_boxes, f.tracker_attack_conf, f.tracker_attack_source)
  else ([], 0, none)

/-- `CombatController.process_frame` for one frame: nameplate detection,
prefix OCR, target fusion and locking, the (tracker-gated) attack resolution,
calibration reporting, click planning, and state advancement.  Downstream
detections are disabled exactly as in the source (controller.py lines
396-405): `prepare_boxes`, `digit_boxes` and `special_attacks_present` are
hard-wired empty/false. -/
def process_frame (s : CtrlState) (f : FrameIn) : CtrlState × FrameOut :=
  let (npBoxes, npConf, method, ev1) := detect_nameplate s f
  let pfx_boxes := if s.pfx_word then f.pfx_boxes else []
  let pfx_conf := if s.pfx_word then f.pfx_conf else 0
  let (s1, boxes, best_conf, lock_active, target_ready) :=
    fuse s f.now npBoxes npConf pfx_boxes pfx_conf
  let (attack_boxes, attack_conf, attack_source) := frame_attack_hit s1 f
  let ev2 := attack_calib_report attack_boxes attack_source attack_conf
    s1.attack_template_path.isSome
  let planned := plan_clicks f.roi_origin target_ready boxes attack_boxes
  let adv : AdvIn :=
    { target_ready := target_ready
      attack_boxes := attack_boxes ≠ []
      prepare_boxes := false
      digit_boxes := false
      special_attacks_present := false }
  let (s2, emits) := advance_state s1 adv
  (s2,
   { found := target_ready
     boxes := boxes
     confidence := best_conf
     method := method
     lock_active := lock_active
     attack_found := attack_boxes ≠ []
     attack_boxes := attack_boxes
     attack_conf := attack_conf
     attack_source := attack_source
     planned_clicks := planned
     emits := emits
     calib_events := [ev1, ev2].filterMap id })

/-- Run the controller over a list of frames, collecting per-frame outputs. -/
def run_frames (s : CtrlState) : List FrameIn → CtrlState × List FrameOut
  | [] => (s, [])
  | f :: fs =>
    let (s1, o) := process_frame s f
    let (s2, os) := run_frames s1 fs
    (s2, o :: os)

/-- Steps (c)-(e) of the claim-side attack chain: template in the static HUD
ROI, OCR in the static HUD ROI, filtered OCR over the whole frame. -/
def claimed_attack_chain_rest (inp : AttackIn) : AttackHit :=
  if inp.attack_template_loaded ∧ inp.panel_nonempty ∧ inp.tpl_panel_boxes ≠ [] then
    (offsetBoxes inp.panel_origin.1 inp.panel_origin.2 inp.tpl_panel_boxes,
     match Calibration.listMax inp.tpl_panel_scores with
     | some m => m
     | none => 7/10,
     some "template_roi")
  else if inp.ocr_panel_boxes ≠ [] then
    (offsetBoxes inp.panel_origin.1 inp.panel_origin.2 inp.ocr_panel_boxes,
     if inp.ocr_panel_conf > 1/100 then inp.ocr_panel_conf else 6/10,
     some "ocr_panel")
  else if global_filtered inp ≠ [] then
    (global_filtered inp,
     if inp.ocr_global_conf > 1/100 then inp.ocr_global_conf else 6/10,
     some "ocr_global")
  else ([], 0, none)

/-- Claim-side attack chain, modelled from the claim's stated order: (a)
template match inside the context-menu rectangle, (b) OCR inside that same
rectangle, (c) template match inside the static HUD ROI, (d) OCR inside the
static HUD ROI, (e) OCR over the whole frame with size/position filters;
first producer wins. -/
def claimed_attack_chain (inp : AttackIn) : AttackHit :=
  let clip : Option (ℤ × ℤ × Bool) :=
    match inp.context_rect with
    | some (ax, ay, aw, ah) =>
      let ax0 := max 0 ax
      let ay0 := max 0 ay
      some (ax0, ay0,
        decide (min inp.roi_w (ax + aw) > ax0) && decide (min inp.roi_h (ay + ah) > ay0))
    | none => none
  match clip with
  | some (ax0, ay0, valid) =>
    if valid ∧ inp.attack_template_loaded ∧ inp.tpl_context_boxes ≠ [] then
      (offsetBoxes ax0 ay0 inp.tpl_context_boxes,
       match Calibration.listMax inp.tpl_context_scores with
       | some m => m
       | none => 7/10,
       some "template_context")
    else if valid ∧ inp.ocr_context_boxes ≠ [] then
      (offsetBoxes ax0 ay0 inp.ocr_context_boxes,
       if inp.ocr_context_conf > 1/100 then inp.ocr_context_conf else 6/10,
       some "ocr_context")
    else claimed_attack_chain_rest inp
  | none => claimed_attack_chain_rest inp

/-- Claim-side cascade for the attack chain in the order the source actually
uses: OCR in the context-menu rectangle, template in the attack panel ROI,
template over the whole frame, OCR in the attack panel ROI, filtered OCR over
the whole frame. -/
def actual_attack_chain (inp : AttackIn) : AttackHit :=
  let ctxValid : Bool :=
    match inp.context_rect with
    | some (ax, ay, aw, ah) =>
      decide (min inp.roi_w (ax + aw) > max 0 ax) && decide (min inp.roi_h (ay + ah) > max 0 ay)
    | none => false
  let ctxOff :=
    match inp.context_rect with
    | some (ax, ay, _, _) => (max 0 ax, max 0 ay)
    | none => (0, 0)
  if ctxValid ∧ inp.ocr_context_boxes ≠ [] then
    (offsetBoxes ctxOff.1 ctxOff.2 inp.ocr_context_boxes,
     if inp.ocr_context_conf > 1/100 then inp.ocr_context_conf else 6/10,
     some "ocr_context")
  else if inp.context_rect.isSome ∧ inp.attack_template_loaded ∧ inp.panel_nonempty ∧
      inp.tpl_panel_boxes ≠ [] then
    (offsetBoxes inp.panel_origin.1 inp.panel_origin.2 inp.tpl_panel_boxes,
     match Calibration.listMax inp.tpl_panel_scores with
     | some m => m
     | none => 7/10,
     some "template_roi")
  else if inp.context_rect.isSome ∧ inp.attack_template_loaded ∧ inp.tpl_frame_boxes ≠ [] then
    (inp.tpl_frame_boxes,
     match Calibration.listMax inp.tpl_frame_scores with
     | some m => m
     | none => 7/10,
     some "template")
  else if inp.ocr_panel_boxes ≠ [] then
    (offsetBoxes inp.panel_origin.1 inp.panel_origin.2 inp.ocr_panel_boxes,
     if inp.ocr_panel_conf > 1/100 then inp.ocr_panel_conf else 6/10,
     some "ocr_panel")
  else if global_filtered inp ≠ [] then
    (global_filtered inp,
     if inp.ocr_global_conf > 1/100 then inp.ocr_global_conf else 6/10,
     some "ocr_global")
  else ([], 0, none)

/-- Raw nameplate boxes a frame produces before fusion. -/
def nameplate_raw (s : CtrlState) (f : FrameIn) : List Box :=
  (detect_nameplate s f).1

/-- Nameplate confidence a frame produces before fusion. -/
def nameplate_conf0 (s : CtrlState) (f : FrameIn) : ℚ :=
  (detect_nameplate s f).2.1

/-- Prefix boxes used by a frame (empty when no prefix word is configured). -/
def frame_pfx_boxes (s : CtrlState) (f : FrameIn) : List Box :=
  if s.pfx_word then f.pfx_boxes else []

/-- Prefix confidence used by a frame. -/
def frame_pfx_conf (s : CtrlState) (f : FrameIn) : ℚ :=
  if s.pfx_word then f.pfx_conf else 0

/-- The merge condition: nameplate and prefix both detected in this frame (and
a prefix word configured), which merges the boxes and arms the lock. -/
def merge_arm_cond (s : CtrlState) (f : FrameIn) : Prop :=
  s.pfx_word ∧ frame_pfx_boxes s f ≠ [] ∧ nameplate_raw s f ≠ []

/-- The OCR-lock condition: after the merge/hold/expire block the lock is not
active and the fused confidence clears `min_nameplate_conf + 0.1`, which arms
the lock without any prefix evidence. -/
def ocr_arm_cond (s : CtrlState) (f : FrameIn) : Prop :=
  ¬ (fuse_merge s f.now (nameplate_raw s f) (nameplate_conf0 s f)
      (frame_pfx_boxes s f) (frame_pfx_conf s f)).lock_active ∧
  (fuse_merge s f.now (nameplate_raw s f) (nameplate_conf0 s f)
      (frame_pfx_boxes s f) (frame_pfx_conf s f)).best_conf ≥ MIN_NAMEPLATE_CONF + 1/10

instance (s : CtrlState) (f : FrameIn) : Decidable (ocr_arm_cond s f) := by
  unfold ocr_arm_cond
  infer_instance

/-- The `_advance_state` input a frame produces: the fused target-ready flag,
the attack-hit presence, and the three hard-disabled detections. -/
def frame_adv_in (s : CtrlState) (f : FrameIn) : AdvIn :=
  let fz := fuse s f.now (nameplate_raw s f) (nameplate_conf0 s f)
    (frame_pfx_boxes s f) (frame_pfx_conf s f)
  { target_ready := fz.2.2.2.2
    attack_boxes := (frame_attack_hit fz.1 f).1 ≠ []
    prepare_boxes := false
    digit_boxes := false
    special_attacks_present := false }

/-- Per-frame check used by the tracker-disabled invariant: the attack result
is empty and no attack-button click is planned or emitted. -/
def frame_out_ok (o : FrameOut) : Bool :=
  !o.attack_found && o.attack_boxes.isEmpty && o.attack_source.isNone &&
    o.planned_clicks.all (fun p => p.label != "attack_button") &&
    o.emits.all (fun e => e != .click "attack_button")

/-- A frame with no detector responses at all. -/
def emptyFrame (now : ℚ) : FrameIn :=
  { now := now
    roi_origin := (0, 0)
    tpl_loaded := false
    tpl_roi_boxes := []
    tpl_roi_scores := []
    tpl_full_boxes := []
    tpl_full_scores := []
    ocr_name_boxes := []
    ocr_name_conf := 0
    pfx_boxes := []
    pfx_conf := 0
    tracker_attack_boxes := []
    tracker_attack_conf := 0
    tracker_attack_source := none }

/-- Controller as constructed for the concrete runs: prefix word configured,
no template, auto method, tracker flag false. -/
def ctrl0 : CtrlState := CtrlState.init true false none .auto

/-- Frame for the OCR-lock counterexample: an OCR nameplate hit at confidence
0.5 with no prefix box anywhere in the frame. -/
def c4_frame : FrameIn :=
  { emptyFrame 1000 with
      ocr_name_boxes := [⟨10, 10, 40, 12⟩]
      ocr_name_conf := 1/2 }

/-- Frame 1 of the reachability run: nameplate and prefix both detected. -/
def c5_frame1 : FrameIn :=
  { emptyFrame 1000 with
      ocr_name_boxes := [⟨120, 80, 60, 14⟩]
      ocr_name_conf := 8/10
      pfx_boxes := [⟨80, 80, 36, 14⟩]
      pfx_conf := 9/10 }

/-- The reachability frame sequence of the claim, fed to the full per-frame
pipeline at the service poll period of 0.3 s: nameplate+prefix, then frames
showing only the attack button / prepare panel / weapon digit / special-attacks
cue.  The pipeline never queries the prepare/weapon/special detectors (they
are hard-disabled) and the attack chain is gated behind the tile tracker, so
those frames contribute nothing but the attack adapter data. -/
def c5_frames : List FrameIn :=
  [c5_frame1,
   { emptyFrame (1000 + 3/10) with
       tracker_attack_boxes := [⟨500, 200, 80, 24⟩]
       tracker_attack_conf := 7/10
       tracker_attack_source := some "ocr_context" },
   emptyFrame (1000 + 6/10),
   emptyFrame (1000 + 9/10),
   emptyFrame (1000 + 12/10),
   emptyFrame (1000 + 15/10),
   emptyFrame (1000 + 18/10)]

/-- The same detection sequence expressed directly as `_advance_state` inputs:
target ready, then attack, prepare, weapon digit, and three frames of the
special-attacks cue. -/
def c5_advs : List AdvIn :=
  [{ target_ready := true, attack_boxes := false, prepare_boxes := false,
     digit_boxes := false, special_attacks_present := false },
   { target_ready := false, attack_boxes := true, prepare_boxes := false,
     digit_boxes := false, special_attacks_present := false },
   { target_ready := false, attack_boxes := false, prepare_boxes := true,
     digit_boxes := false, special_attacks_present := false },
   { target_ready := false, attack_boxes := false, prepare_boxes := false,
     digit_boxes := true, special_attacks_present := false },
   { target_ready := false, attack_boxes := false, prepare_boxes := false,
     digit_boxes := false, special_attacks_present := true },
   { target_ready := false, attack_boxes := false, prepare_boxes := false,
     digit_boxes := false, special_attacks_present := true },
   { target_ready := false, attack_boxes := false, prepare_boxes := false,
     digit_boxes := false, special_attacks_present := true }]

/-- Attack-chain input where a template hit inside the context-menu rectangle
and an OCR hit inside the same rectangle are both available. -/
def c6_input : AttackIn :=
  { context_rect := some (5, 5, 50, 50)
    roi_w := 800
    roi_h := 600
    ocr_context_boxes := [⟨10, 10, 70, 20⟩]
    ocr_context_conf := 1/2
    tpl_context_boxes := [⟨12, 12, 60, 18⟩]
    tpl_context_scores := [9/10]
    attack_template_loaded := true
    panel_nonempty := true
    panel_origin := (400, 100)
    tpl_panel_boxes := []
    tpl_panel_scores := []
    tpl_frame_boxes := []
    tpl_frame_scores := []
    ocr_panel_boxes := []
    ocr_panel_conf := 0
    ocr_global_boxes := []
    ocr_global_conf := 0 }

/-- Controller state sitting in BattleLoop with the absence counter clear. -/
def battle_state : CtrlState := { ctrl0 with state := .battleLoop }

/-- Detection input with only the special-attacks cue present. -/
def special_in : AdvIn :=
  { target_ready := false, attack_boxes := false, prepare_boxes := false,
    digit_boxes := false, special_attacks_present := true }

/-- Detection input with the special-attacks cue absent. -/
def absent_in : AdvIn :=
  { target_ready := false, attack_boxes := false, prepare_boxes := false,
    digit_boxes := false, special_attacks_present := false }

end Combat

namespace Tracking

/-- `TileGrid` (tile.py): a pure coordinate transform parameterised by the
tile size in pixels, the ROI's screen origin, and the pixel tile origin.
The constructor requires `tile_size > 0`; the invariant is carried separately
where a proof needs it. -/
structure TileGrid where
  tile_size : ℚ
  roi_origin : ℚ × ℚ
  tile_origin : ℚ × ℚ
  hover_offset : ℚ × ℚ
deriving DecidableEq, Repr

/-- `TileGrid.screen_to_tile`: absolute screen coordinates to `(row, col)`
tile indices via floor division by the tile size. -/
def TileGrid.screen_to_tile (g : TileGrid) (x y : ℚ) : ℤ × ℤ :=
  let rel_x := (x - g.roi_origin.1) - g.tile_origin.1
  let rel_y := (y - g.roi_origin.2) - g.tile_origin.2
  (⌊rel_y / g.tile_size⌋, ⌊rel_x / g.tile_size⌋)

/-- `TileGrid.tile_to_screen`: top-left pixel of a tile in absolute screen
coordinates. -/
def TileGrid.tile_to_screen (g : TileGrid) (row col : ℤ) : ℚ × ℚ :=
  (g.roi_origin.1 + g.tile_origin.1 + (col : ℚ) * g.tile_size,
   g.roi_origin.2 + g.tile_origin.2 + (row : ℚ) * g.tile_size)

/-- A 32-px tile grid with zero origins, used for concrete evaluations. -/
def grid32 : TileGrid :=
  { tile_size := 32, roi_origin := (0, 0), tile_origin := (0, 0), hover_offset := (1/2, 1/2) }

end Tracking

/-! ## Theorems -/

namespace Calibration

theorem sweep_fold_go_fst (cells : List Cell) :
    ∀ (a : ℚ) (r : Option Roi),
      (cells.foldl sweep_step (a, r)).1 =
        (cells.filterMap fun c => listMax c.scores).foldl max a := by
  induction cells with
  | nil => intro a r; rfl
  | cons c cs ih =>
    intro a r
    simp only [List.foldl_cons, List.filterMap_cons]
    cases h : listMax c.scores with
    | none => simp only [sweep_step, h]; exact ih a r
    | some m =>
      simp only [sweep_step, h]
      by_cases hm : m > a
      · rw [if_pos hm, List.foldl_cons, ih]
        rw [max_eq_right hm.le]
      · rw [if_neg hm, List.foldl_cons, ih]
        rw [max_eq_left (le_of_not_lt hm)]

theorem sweep_fold_fst (cells : List Cell) :
    (sweep_fold cells).1 = sweep_best_score cells :=
  sweep_fold_go_fst cells 0 none

theorem sweep_fold_some_stays (cells : List Cell) :
    ∀ acc : ℚ × Option Roi, acc.2.isSome → ((cells.foldl sweep_step acc).2).isSome := by
  induction cells with
  | nil => intro acc h; exact h
  | cons c cs ih =>
    intro acc h
    simp only [List.foldl_cons]
    apply ih
    unfold sweep_step
    cases hms : listMax c.scores with
    | none => exact h
    | some m =>
      by_cases hm : m > acc.1
      · simp [hm]
      · simpa [hm] using h

theorem sweep_fold_none_eq (cells : List Cell) :
    ∀ acc : ℚ × Option Roi,
      (cells.foldl sweep_step acc).2 = none → cells.foldl sweep_step acc = acc := by
  induction cells with
  | nil => intro acc _; rfl
  | cons c cs ih =>
    intro acc h
    simp only [List.foldl_cons] at h ⊢
    cases hms : listMax c.scores with
    | none =>
      have hstep : sweep_step acc c = acc := by simp [sweep_step, hms]
      rw [hstep] at h ⊢
      exact ih acc h
    | some m =>
      by_cases hm : m > acc.1
      · exfalso
        have hs : ((cs.foldl sweep_step (sweep_step acc c)).2).isSome := by
          apply sweep_fold_some_stays
          simp [sweep_step, hms, hm]
        rw [h] at hs
        simp at hs
      · have hstep : sweep_step acc c = acc := by simp [sweep_step, hms, hm]
        rw [hstep] at h ⊢
        exact ih acc h

theorem current_acceptance_threshold_ge (key : String) (n : ℕ) (b : Bool) :
    (84 : ℚ)/100 ≤ current_acceptance_threshold key n b := by
  unfold current_acceptance_threshold
  refine le_trans ?_ (le_max_left _ _)
  cases b <;> norm_num

theorem sweep_roi_isSome_iff (cells : List Cell) (acceptance : ℚ)
    (hpos : 0 < acceptance) :
    (sweep_roi cells acceptance).isSome =
      decide (sweep_best_score cells ≥ acceptance) := by
  unfold sweep_roi
  cases hfold : (sweep_fold cells).2 with
  | none =>
    have heq : sweep_fold cells = (0, none) := sweep_fold_none_eq cells (0, none) hfold
    have h0 : sweep_best_score cells = 0 := by
      rw [← sweep_fold_fst, heq]
    simp only [hfold, h0]
    have : ¬ ((0 : ℚ) ≥ acceptance) := not_le.mpr hpos
    simp [this]
  | some r =>
    have hfst : (sweep_fold cells).1 = sweep_best_score cells := sweep_fold_fst cells
    simp only [hfold]
    by_cases hge : (sweep_fold cells).1 ≥ acceptance
    · rw [if_pos hge]
      rw [hfst] at hge
      simp [hge]
    · rw [if_neg hge]
      rw [hfst] at hge
      simp [hge]

/-- C1: for every detector key, no-match streak and override flag, the
calibration acceptance threshold equals
`max(floor, base - min(0.05, max(0, n-1)*0.02))` with base 0.90/0.88 and
floor 0.85/0.84 according to override presence; for key "attack" with no
override and a streak of 3 the threshold is 0.84; and a swept ROI is returned
as an accepted result exactly when the best grid-cell score reaches the
threshold. -/
theorem acceptance_threshold_spec :
    (∀ (key : String) (n : ℕ) (b : Bool),
        current_acceptance_threshold key n b =
          max (if b then (85 : ℚ)/100 else 84/100)
            ((if b then (90 : ℚ)/100 else 88/100) -
              min (5/100) (((max 0 ((n : ℤ) - 1) : ℤ) : ℚ) * (2/100)))) ∧
    current_acceptance_threshold "attack" 3 false = 84/100 ∧
    ∀ (key : String) (n : ℕ) (b : Bool) (cells : List Cell),
      (sweep_roi cells (current_acceptance_threshold key n b)).isSome =
        decide (sweep_best_score cells ≥ current_acceptance_threshold key n b) := by
  refine ⟨fun key n b => rfl, by norm_num [current_acceptance_threshold], ?_⟩
  intro key n b cells
  exact sweep_roi_isSome_iff cells _
    (lt_of_lt_of_le (by norm_num) (current_acceptance_threshold_ge key n b))

/-- C2: with a configured template path, `template_fallback` equals the
claim-side model: zero the success streak, increment the fallback streak,
evaluate the six skip conditions in the stated priority order with the first
match winning and changing no further state, and only if none applies stamp
the capture signature, increment the pending-job count and submit the sweep
job. -/
theorem template_fallback_matches_spec (cooldown : ℚ) (s : CalibKeyState)
    (p : String) (hint_box : Option Box) (confidence now : ℚ) :
    template_fallback cooldown s (some p) hint_box confidence now =
      template_fallback_spec cooldown s hint_box confidence now := by
  unfold template_fallback template_fallback_spec skip_reason_spec fallback_bookkeep
    last_success_ts_of duplicate_capture
  simp only [STABLE_EXIT_FALLBACK, FALLBACK_CAPTURE_MIN_STREAK]
  split_ifs <;> simp_all <;> omega

/-- C3 counterexample: after six successes the detector is stable; a single
fallback (streak 1) keeps it stable; but the next template success — not a
second fallback — drops stability, refuting "dropped by a fallback only when
the fallback streak reaches 2 and by nothing else". -/
theorem stability_drop_counterexample :
    c3_after_successes.stable = true ∧
    c3_after_fallback.stable = true ∧
    c3_after_fallback.fallback_streak = 1 ∧
    c3_after_late_success.stable = false ∧
    c3_after_late_success.fallback_streak = 0 := by
  decide

/-- C3 amended: after any `template_success` the stable flag equals
"success streak at least 6" (so it becomes true exactly when the streak
reaches 6, and a success that resets the streak below 6 while stable drops
it), and after any `template_fallback` with a template path the stable flag
equals "was stable and the incremented fallback streak is below 2" (so a
single fallback never drops stability and a second consecutive one always
does). -/
theorem stability_amended :
    (∀ (s : CalibKeyState) (score : ℚ) (roi : Option Roi) (box : Option Box) (now : ℚ),
        (template_success s score roi box now).1.stable =
          decide ((template_success s score roi box now).1.success_streak ≥ 6)) ∧
    (∀ (cooldown : ℚ) (s : CalibKeyState) (p : String) (hint_box : Option Box)
        (confidence now : ℚ),
        (template_fallback cooldown s (some p) hint_box confidence now).1.stable =
          (s.stable && decide (s.fallback_streak + 1 < 2))) := by
  constructor
  · intro s score roi box now
    unfold template_success
    simp only [STABLE_ENTER_STREAK]
    split_ifs <;> simp_all
  · intro cooldown s p hint_box confidence now
    unfold template_fallback
    simp only [STABLE_EXIT_FALLBACK, FALLBACK_CAPTURE_MIN_STREAK]
    split_ifs <;> simp_all <;> omega

/-- C7: a calibration job equals the claim-side model — on acceptance the ROI
is persisted as the override and the no-match/fallback streaks zeroed, on a
miss the override is untouched and the no-match streak incremented, on an
exception override and no-match streak are unchanged and an error result is
recorded — and in every outcome the pending-job count is decremented with a
floor at zero, hence never negative. -/
theorem run_calibration_matches_spec :
    ∀ (key : String) (s : CalibKeyState) (inp : CalibJobInput),
      run_calibration key s inp = run_calibration_spec key s inp ∧
      (run_calibration key s inp).1.pending_jobs = max 0 (s.pending_jobs - 1) ∧
      0 ≤ (run_calibration key s inp).1.pending_jobs := by
  intro key s inp
  have hpos : (0 : ℚ) < current_acceptance_threshold key inp.no_match_streak inp.has_override :=
    lt_of_lt_of_le (by norm_num) (current_acceptance_threshold_ge key _ _)
  refine ⟨?_, ?_, ?_⟩
  · unfold run_calibration run_calibration_spec
    by_cases hok : inp.assets_ok
    · simp only [hok, not_true_eq_false, if_false]
      cases hcells : inp.sweep_cells with
      | error e => rfl
      | ok cells =>
        simp only []
        have hiff := sweep_roi_isSome_iff cells _ hpos
        cases hroi : sweep_roi cells
            (current_acceptance_threshold key inp.no_match_streak inp.has_override) with
        | none =>
          rw [hroi] at hiff
          simp only [Option.isSome_none, Bool.false_eq, eq_comm (a := false),
            decide_eq_false_iff_not] at hiff
          rw [if_neg hiff]
        | some res =>
          rw [hroi] at hiff
          simp only [Option.isSome_some, Bool.true_eq, eq_comm (a := true),
            decide_eq_true_eq] at hiff
          rw [if_pos hiff]
          -- the accepted result carries the fold's best roi and score
          simp only [sweep_roi] at hroi
          cases hfold : (sweep_fold cells).2 with
          | none =>
            rw [hfold] at hroi
            exact absurd hroi (by simp)
          | some r =>
            rw [hfold] at hroi
            have hroi' :
                (if (sweep_fold cells).1 ≥
                    current_acceptance_threshold key inp.no_match_streak inp.has_override then
                  some { roi := r, score := (sweep_fold cells).1 }
                else (none : Option CalibrationResult)) = some res := hroi
            by_cases hge : (sweep_fold cells).1 ≥
                current_acceptance_threshold key inp.no_match_streak inp.has_override
            · rw [if_pos hge] at hroi'
              have hres : res = { roi := r, score := (sweep_fold cells).1 } :=
                (Option.some_injective _ hroi').symm
              subst hres
              simp only [sweep_fold_fst]
            · rw [if_neg hge] at hroi'
              exact absurd hroi' (by simp)
    · simp only [hok]
      rfl
  · unfold run_calibration
    split_ifs <;> cases inp.sweep_cells <;>
      simp only [] <;>
      first
        | rfl
        | (rename_i cells
           cases sweep_roi cells
             (current_acceptance_threshold key inp.no_match_streak inp.has_override) <;> rfl)
  · unfold run_calibration
    split_ifs <;> cases inp.sweep_cells <;>
      simp only [] <;>
      first
        | exact le_max_left _ _
        | (rename_i cells
           cases sweep_roi cells
             (current_acceptance_threshold key inp.no_match_streak inp.has_override) <;>
             exact le_max_left _ _)

end Calibration

namespace Combat

@[simp] theorem cs_scan_scan : (CState.scan = CState.scan) = True := by decide
@[simp] theorem cs_pt_scan : (CState.primeTarget = CState.scan) = False := by decide
@[simp] theorem cs_ap_scan : (CState.attackPanel = CState.scan) = False := by decide
@[simp] theorem cs_pr_scan : (CState.prepare = CState.scan) = False := by decide
@[simp] theorem cs_wp_scan : (CState.weapon = CState.scan) = False := by decide
@[simp] theorem cs_bl_scan : (CState.battleLoop = CState.scan) = False := by decide
@[simp] theorem cs_scan_bl : (CState.scan = CState.battleLoop) = False := by decide
@[simp] theorem cs_pt_bl : (CState.primeTarget = CState.battleLoop) = False := by decide
@[simp] theorem cs_ap_bl : (CState.attackPanel = CState.battleLoop) = False := by decide
@[simp] theorem cs_pr_bl : (CState.prepare = CState.battleLoop) = False := by decide
@[simp] theorem cs_wp_bl : (CState.weapon = CState.battleLoop) = False := by decide
@[simp] theorem cs_bl_bl : (CState.battleLoop = CState.battleLoop) = True := by decide

theorem process_frame_fst (s : CtrlState) (f : FrameIn) :
    (process_frame s f).1 =
      (advance_state
        (fuse s f.now (nameplate_raw s f) (nameplate_conf0 s f)
          (frame_pfx_boxes s f) (frame_pfx_conf s f)).1
        (frame_adv_in s f)).1 := rfl

theorem battle_special_fix (n : ℕ) :
    run_adv battle_state (List.replicate n special_in) = (battle_state, []) := by
  induction n with
  | zero => rfl
  | succ k ih =>
    rw [List.replicate_succ]
    have hstep : advance_state battle_state special_in = (battle_state, []) := rfl
    simp only [run_adv, hstep]
    rw [ih]
    rfl

/-- C8 counterexample: in the combat state machine's BattleLoop there is no
fight-duration exit at all — with the special-attacks cue present on every
frame, 700 frames (210 s at the 0.3 s poll period, well past the claimed
180 s limit) leave the machine in BattleLoop with no `battle_end` event. -/
theorem battleLoop_duration_counterexample :
    (run_adv battle_state (List.replicate 700 special_in)).1.state = CState.battleLoop ∧
    (run_adv battle_state (List.replicate 700 special_in)).2 = [] ∧
    (700 : ℚ) * (3/10) > 180 := by
  rw [battle_special_fix 700]
  exact ⟨rfl, rfl, by norm_num⟩

/-- C8 amended: in BattleLoop a frame with the special-attacks cue present
resets the absence counter; the machine stays in BattleLoop through five
consecutive absent frames; and on the sixth consecutive absent frame it emits
`battle_end` exactly once and transitions back to Scan.  There is no
fight-duration exit in the combat state machine (the 180 s timeout lives only
in the legacy service loop and is itself evaluated only on a frame where the
cue is absent). -/
theorem battleLoop_exit_amended :
    (∀ (s : CtrlState) (a b c d : Bool),
      advance_state { s with state := .battleLoop }
        { target_ready := a, attack_boxes := b, prepare_boxes := c,
          digit_boxes := d, special_attacks_present := true } =
        ({ s with state := .battleLoop, absent_counter := 0 }, [])) ∧
    (∀ (s : CtrlState) (a b c d : Bool),
      run_adv { s with state := .battleLoop, absent_counter := 0 }
        (List.replicate 5
          { target_ready := a, attack_boxes := b, prepare_boxes := c,
            digit_boxes := d, special_attacks_present := false }) =
        ({ s with state := .battleLoop, absent_counter := 5 }, [])) ∧
    (∀ (s : CtrlState) (a b c d : Bool),
      run_adv { s with state := .battleLoop, absent_counter := 0 }
        (List.replicate 6
          { target_ready := a, attack_boxes := b, prepare_boxes := c,
            digit_boxes := d, special_attacks_present := false }) =
        ({ s with
            state := .scan
            absent_counter := 0
            target_lock_until := 0
            locked_box := none
            click_attempts_prime := 0
            click_attempts_attack := 0 },
         [.battleEnd])) := by
  refine ⟨fun s a b c d => rfl, fun s a b c d => rfl, fun s a b c d => rfl⟩

set_option maxRecDepth 8192 in
/-- C5 counterexample: feeding the claimed frame sequence into the actual
per-frame processing does not reach BattleLoop — the pipeline hard-disables
the prepare/weapon/special detections and gates the attack chain behind the
always-off tile tracker, so the run ends back in Scan. -/
theorem reachability_pipeline_counterexample :
    (run_frames ctrl0 c5_frames).1.state = CState.scan ∧
    CState.scan ≠ CState.battleLoop := by
  constructor
  · norm_num [run_frames, process_frame, detect_nameplate, fuse, fuse_merge,
      fuse_ocr_lock, pushHist, advance_state, transitionTo, frame_attack_hit,
      attack_calib_report, mergeBoxes, prime_click, attack_click,
      MIN_NAMEPLATE_CONF, TARGET_LOCK_GRACE, ctrl0, CtrlState.init, c5_frames,
      c5_frame1, emptyFrame, Calibration.listMax]
  · decide

/-- C5 amended: the same detection sequence fed directly to the transition
logic `_advance_state` (target ready; attack; prepare; weapon digit; three
frames of the special-attacks cue) drives the machine deterministically
through Scan → PrimeTarget → AttackPanel → Prepare → Weapon → BattleLoop with
exactly one click emitted at each qualifying transition (prime, attack,
weapon). -/
theorem reachability_transition_logic :
    adv_trace ctrl0 c5_advs =
      [CState.scan, CState.primeTarget, CState.attackPanel, CState.prepare,
       CState.weapon, CState.battleLoop, CState.battleLoop, CState.battleLoop] ∧
    (run_adv ctrl0 c5_advs).2 =
      [Emit.click "prime_nameplate", Emit.click "attack_button",
       Emit.click "weapon_1"] := by
  exact ⟨rfl, rfl⟩

theorem fuse_fst_lock_until (s : CtrlState) (now : ℚ) (raw : List Box) (c0 : ℚ)
    (pb : List Box) (pc : ℚ) :
    (fuse s now raw c0 pb pc).1.target_lock_until =
      (fuse_ocr_lock now (fuse_merge s now raw c0 pb pc)).target_lock_until := by
  simp only [fuse]
  split <;> rfl

theorem fuse_ocr_lock_lu (now : ℚ) (m : FuseMid) :
    (fuse_ocr_lock now m).target_lock_until =
      if ¬ m.lock_active ∧ m.best_conf ≥ MIN_NAMEPLATE_CONF + 1/10 then
        now + TARGET_LOCK_GRACE
      else m.target_lock_until := by
  unfold fuse_ocr_lock
  split_ifs <;> rfl

theorem fuse_merge_lu_cases (s : CtrlState) (now : ℚ) (raw : List Box) (c0 : ℚ)
    (pb : List Box) (pc : ℚ) :
    ((fuse_merge s now raw c0 pb pc).target_lock_until = now + TARGET_LOCK_GRACE ∧
      (s.pfx_word ∧ pb ≠ [] ∧ raw ≠ [])) ∨
    (fuse_merge s now raw c0 pb pc).target_lock_until = s.target_lock_until ∨
    (fuse_merge s now raw c0 pb pc).target_lock_until = 0 := by
  by_cases h1 : s.pfx_word ∧ pb ≠ [] ∧ raw ≠ []
  · left
    refine ⟨?_, h1⟩
    simp [fuse_merge, h1]
  · by_cases h2 : (now < s.target_lock_until) ∧ s.locked_box.isSome
    · right; left
      simp [fuse_merge, h1, h2]
    · by_cases h3 : raw = []
      · right; right
        simp [fuse_merge, h1, h2, h3]
      · right; left
        have hcond : ¬ (s.pfx_word = true ∧ ¬ pb = []) := fun hc => h1 ⟨hc.1, hc.2, h3⟩
        simp [fuse_merge, h1, h2, h3, hcond]

theorem advance_state_lu (st : CtrlState) (i : AdvIn) :
    (advance_state st i).1.target_lock_until = st.target_lock_until ∨
    (advance_state st i).1.target_lock_until = 0 := by
  cases hst : st.state <;>
    simp [advance_state, transitionTo, hst] <;>
    split_ifs <;> simp

/-- C4 amended: across every processed frame, `lock_until` afterwards is
either `now + grace`, unchanged, or cleared to 0; and when it was freshly
armed to `now + grace` this happened through the nameplate+prefix merge or
through the OCR lock (fused confidence at least `min_nameplate_conf + 0.1`
while the lock was inactive) — the merge is not the only arming path. -/
theorem target_lock_arming (s : CtrlState) (f : FrameIn) :
    ((process_frame s f).1.target_lock_until = f.now + TARGET_LOCK_GRACE ∨
      (process_frame s f).1.target_lock_until = s.target_lock_until ∨
      (process_frame s f).1.target_lock_until = 0) ∧
    ((process_frame s f).1.target_lock_until = f.now + TARGET_LOCK_GRACE →
      (process_frame s f).1.target_lock_until ≠ s.target_lock_until →
      (process_frame s f).1.target_lock_until ≠ 0 →
      merge_arm_cond s f ∨ ocr_arm_cond s f) := by
  have hpf := process_frame_fst s f
  have hfuse := fuse_fst_lock_until s f.now (nameplate_raw s f) (nameplate_conf0 s f)
    (frame_pfx_boxes s f) (frame_pfx_conf s f)
  have hocr := fuse_ocr_lock_lu f.now
    (fuse_merge s f.now (nameplate_raw s f) (nameplate_conf0 s f)
      (frame_pfx_boxes s f) (frame_pfx_conf s f))
  have hmerge := fuse_merge_lu_cases s f.now (nameplate_raw s f) (nameplate_conf0 s f)
    (frame_pfx_boxes s f) (frame_pfx_conf s f)
  have hadv := advance_state_lu
    (fuse s f.now (nameplate_raw s f) (nameplate_conf0 s f)
      (frame_pfx_boxes s f) (frame_pfx_conf s f)).1
    (frame_adv_in s f)
  have hs1 :
      (fuse s f.now (nameplate_raw s f) (nameplate_conf0 s f)
        (frame_pfx_boxes s f) (frame_pfx_conf s f)).1.target_lock_until =
        if ocr_arm_cond s f then f.now + TARGET_LOCK_GRACE
        else
          (fuse_merge s f.now (nameplate_raw s f) (nameplate_conf0 s f)
            (frame_pfx_boxes s f) (frame_pfx_conf s f)).target_lock_until := by
    rw [hfuse, hocr]
    rfl
  constructor
  · rw [hpf]
    rcases hadv with h | h
    · rw [h, hs1]
      by_cases ho : ocr_arm_cond s f
      · left; rw [if_pos ho]
      · rw [if_neg ho]
        rcases hmerge with ⟨hm, _⟩ | hm | hm
        · left; exact hm
        · right; left; exact hm
        · right; right; exact hm
    · right; right
      exact h
  · intro h1 h2 h3
    rw [hpf] at h1 h2 h3
    rcases hadv with h | h
    · rw [h, hs1] at h1 h2 h3
      by_cases ho : ocr_arm_cond s f
      · right; exact ho
      · left
        rw [if_neg ho] at h1 h2 h3
        rcases hmerge with ⟨_, hcond⟩ | hm | hm
        · exact hcond
        · exact absurd hm h2
        · exact absurd hm h3
    · exact absurd h h3

/-- C4 counterexample: a frame with an OCR nameplate hit at confidence 0.5 and
no prefix box anywhere still arms the target lock to `now + 1.2 s`, refuting
"the merge of nameplate and prefix boxes is the only way the lock is
armed". -/
theorem target_lock_ocr_counterexample :
    (process_frame ctrl0 c4_frame).1.target_lock_until = 1000 + TARGET_LOCK_GRACE ∧
    c4_frame.pfx_boxes = [] ∧
    ctrl0.target_lock_until = 0 ∧
    (1000 : ℚ) + TARGET_LOCK_GRACE ≠ 0 := by
  refine ⟨?_, rfl, rfl, by norm_num [TARGET_LOCK_GRACE]⟩
  norm_num [process_frame, detect_nameplate, fuse, fuse_merge, fuse_ocr_lock,
    pushHist, advance_state, transitionTo, frame_attack_hit, attack_calib_report,
    mergeBoxes, prime_click, attack_click, MIN_NAMEPLATE_CONF, TARGET_LOCK_GRACE,
    ctrl0, CtrlState.init, c4_frame, emptyFrame, Calibration.listMax]

theorem target_lock_arming_witness :
    merge_arm_cond ctrl0 c4_frame ∨ ocr_arm_cond ctrl0 c4_frame := by
  have h : (process_frame ctrl0 c4_frame).1.target_lock_until =
      c4_frame.now + TARGET_LOCK_GRACE := by
    norm_num [process_frame, detect_nameplate, fuse, fuse_merge, fuse_ocr_lock,
      pushHist, advance_state, transitionTo, frame_attack_hit, attack_calib_report,
      mergeBoxes, prime_click, attack_click, MIN_NAMEPLATE_CONF, TARGET_LOCK_GRACE,
      ctrl0, CtrlState.init, c4_frame, emptyFrame, Calibration.listMax]
  refine (target_lock_arming ctrl0 c4_frame).2 h ?_ ?_
  · rw [h]
    norm_num [c4_frame, emptyFrame, ctrl0, CtrlState.init, TARGET_LOCK_GRACE]
  · rw [h]
    norm_num [c4_frame, emptyFrame, TARGET_LOCK_GRACE]

/-- C6 counterexample: with both a template hit and an OCR hit available
inside the context-menu rectangle, the source resolves the OCR hit first
(source `ocr_context`), not the claimed template-first order — in fact it
never runs a template match inside the context rectangle at all. -/
theorem attack_chain_order_counterexample :
    (resolve_attack c6_input).2.2 = some "ocr_context" ∧
    (claimed_attack_chain c6_input).2.2 = some "template_context" ∧
    resolve_attack c6_input ≠ claimed_attack_chain c6_input := by
  refine ⟨?_, ?_, ?_⟩ <;>
    norm_num [resolve_attack, attack_step_ocr_context, attack_step_template,
      attack_step_ocr_panel, attack_step_ocr_global, global_filtered,
      claimed_attack_chain, claimed_attack_chain_rest,
      c6_input, offsetBoxes, Calibration.listMax]

set_option maxHeartbeats 2000000 in
/-- C6 amended: the attack-button candidates are tried in the order OCR in
the context-menu rectangle, template in the attack-panel HUD ROI, template
over the whole frame, OCR in the attack-panel HUD ROI, filtered OCR over the
whole frame — the first producer wins; a template-sourced hit reports a
calibration success for key "attack" and an OCR-sourced hit reports a
calibration fallback while an attack template path is configured. -/
theorem attack_chain_amended :
    (∀ inp : AttackIn, resolve_attack inp = actual_attack_chain inp) ∧
    (∀ (bs : List Box) (c : ℚ) (hp : Bool),
      (attack_calib_report bs (some "template_roi") c hp =
        if bs ≠ [] then some (.success "attack" c) else none) ∧
      (attack_calib_report bs (some "template") c hp =
        if bs ≠ [] then some (.success "attack" c) else none) ∧
      (attack_calib_report bs (some "ocr_context") c true =
        if bs ≠ [] then some (.fallback "attack" c) else none) ∧
      (attack_calib_report bs (some "ocr_panel") c true =
        if bs ≠ [] then some (.fallback "attack" c) else none) ∧
      (attack_calib_report bs (some "ocr_global") c true =
        if bs ≠ [] then some (.fallback "attack" c) else none)) := by
  constructor
  · intro inp
    have tail_eq :
        attack_step_ocr_global inp (attack_step_ocr_panel inp ([], 0, none)) =
          if inp.ocr_panel_boxes ≠ [] then
            (offsetBoxes inp.panel_origin.1 inp.panel_origin.2 inp.ocr_panel_boxes,
             if inp.ocr_panel_conf > 1/100 then inp.ocr_panel_conf else 6/10,
             some "ocr_panel")
          else if global_filtered inp ≠ [] then
            (global_filtered inp,
             if inp.ocr_global_conf > 1/100 then inp.ocr_global_conf else 6/10,
             some "ocr_global")
          else ([], 0, none) := by
      by_cases hF : inp.ocr_panel_boxes = []
      · by_cases hG : global_filtered inp = [] <;>
          simp [attack_step_ocr_panel, attack_step_ocr_global, hF, hG]
      · simp [attack_step_ocr_panel, attack_step_ocr_global, hF, offsetBoxes]
    unfold resolve_attack
    cases hcr : inp.context_rect with
    | none =>
      have h1 : attack_step_ocr_context inp = ([], 0, none) := by
        simp [attack_step_ocr_context, hcr]
      have h2 : attack_step_template inp ([], 0, none) = ([], 0, none) := by
        simp [attack_step_template, hcr]
      rw [h1, h2, tail_eq]
      simp [actual_attack_chain, hcr]
    | some r =>
      obtain ⟨ax, ay, aw, ah⟩ := r
      by_cases hv : (min inp.roi_w (ax + aw) > max 0 ax ∧ min inp.roi_h (ay + ah) > max 0 ay) ∧
          inp.ocr_context_boxes ≠ []
      · -- the context-rectangle OCR produces the hit
        have h1 : attack_step_ocr_context inp =
            (offsetBoxes (max 0 ax) (max 0 ay) inp.ocr_context_boxes,
             if inp.ocr_context_conf > 1/100 then inp.ocr_context_conf else 6/10,
             some "ocr_context") := by
          simp only [attack_step_ocr_context, hcr]
          rw [if_pos ⟨hv.1.1, hv.1.2, hv.2⟩]
        have hne : offsetBoxes (max 0 ax) (max 0 ay) inp.ocr_context_boxes ≠ [] := by
          simpa [offsetBoxes] using hv.2
        rw [h1]
        rw [show attack_step_template inp
            (offsetBoxes (max 0 ax) (max 0 ay) inp.ocr_context_boxes,
             if inp.ocr_context_conf > 1/100 then inp.ocr_context_conf else 6/10,
             some "ocr_context") = _ from if_neg (by simp [hne])]
        rw [show attack_step_ocr_panel inp
            (offsetBoxes (max 0 ax) (max 0 ay) inp.ocr_context_boxes,
             if inp.ocr_context_conf > 1/100 then inp.ocr_context_conf else 6/10,
             some "ocr_context") = _ from if_neg (by simp [hne])]
        rw [show attack_step_ocr_global inp
            (offsetBoxes (max 0 ax) (max 0 ay) inp.ocr_context_boxes,
             if inp.ocr_context_conf > 1/100 then inp.ocr_context_conf else 6/10,
             some "ocr_context") = _ from if_neg (by simp [hne])]
        simp only [actual_attack_chain, hcr]
        have hcond : (decide (min inp.roi_w (ax + aw) > max 0 ax) &&
            decide (min inp.roi_h (ay + ah) > max 0 ay)) = true ∧
            inp.ocr_context_boxes ≠ [] := by
          refine ⟨?_, hv.2⟩
          simp [hv.1.1, hv.1.2]
        rw [if_pos hcond]
      · -- no context-rectangle OCR hit: step 1 is empty
        have h1 : attack_step_ocr_context inp = ([], 0, none) := by
          simp only [attack_step_ocr_context, hcr]
          rw [if_neg]
          intro hc
          exact hv ⟨⟨hc.1, hc.2.1⟩, hc.2.2⟩
        rw [h1]
        have hactual1 :
            actual_attack_chain inp =
              if inp.context_rect.isSome ∧ inp.attack_template_loaded ∧
                  inp.panel_nonempty ∧ inp.tpl_panel_boxes ≠ [] then
                (offsetBoxes inp.panel_origin.1 inp.panel_origin.2 inp.tpl_panel_boxes,
                 match Calibration.listMax inp.tpl_panel_scores with
                 | some m => m
                 | none => 7/10,
                 some "template_roi")
              else if inp.context_rect.isSome ∧ inp.attack_template_loaded ∧
                  inp.tpl_frame_boxes ≠ [] then
                (inp.tpl_frame_boxes,
                 match Calibration.listMax inp.tpl_frame_scores with
                 | some m => m
                 | none => 7/10,
                 some "template")
              else if inp.ocr_panel_boxes ≠ [] then
                (offsetBoxes inp.panel_origin.1 inp.panel_origin.2 inp.ocr_panel_boxes,
                 if inp.ocr_panel_conf > 1/100 then inp.ocr_panel_conf else 6/10,
                 some "ocr_panel")
              else if global_filtered inp ≠ [] then
                (global_filtered inp,
                 if inp.ocr_global_conf > 1/100 then inp.ocr_global_conf else 6/10,
                 some "ocr_global")
              else ([], 0, none) := by
          simp only [actual_attack_chain, hcr]
          rw [if_neg]
          intro hc
          rcases hc with ⟨hc1, hc2⟩
          simp only [Bool.and_eq_true, decide_eq_true_eq] at hc1
          exact hv ⟨hc1, hc2⟩
        rw [hactual1]
        by_cases htl : inp.attack_template_loaded
        · by_cases hp : inp.panel_nonempty ∧ inp.tpl_panel_boxes ≠ []
          · have h2 : attack_step_template inp ([], 0, none) =
                (offsetBoxes inp.panel_origin.1 inp.panel_origin.2 inp.tpl_panel_boxes,
                 match Calibration.listMax inp.tpl_panel_scores with
                 | some m => m
                 | none => 7/10,
                 some "template_roi") := by
              simp [attack_step_template, hcr, htl, hp]
            have hne : offsetBoxes inp.panel_origin.1 inp.panel_origin.2
                inp.tpl_panel_boxes ≠ [] := by
              simpa [offsetBoxes] using hp.2
            rw [h2]
            rw [show attack_step_ocr_panel inp _ = _ from if_neg (by simp [hne])]
            rw [show attack_step_ocr_global inp _ = _ from if_neg (by simp [hne])]
            rw [if_pos ⟨by simp [hcr], htl, hp⟩]
          · by_cases hf : inp.tpl_frame_boxes ≠ []
            · have h2 : attack_step_template inp ([], 0, none) =
                  (inp.tpl_frame_boxes,
                   match Calibration.listMax inp.tpl_frame_scores with
                   | some m => m
                   | none => 7/10,
                   some "template") := by
                simp [attack_step_template, hcr, htl, hp, hf]
              rw [h2]
              rw [show attack_step_ocr_panel inp _ = _ from if_neg (by simp [hf])]
              rw [show attack_step_ocr_global inp _ = _ from if_neg (by simp [hf])]
              rw [if_neg (fun hc => hp hc.2.2), if_pos ⟨by simp [hcr], htl, hf⟩]
            · have h2 : attack_step_template inp ([], 0, none) = ([], 0, none) := by
                simp [attack_step_template, hcr, htl, hp, hf]
              rw [h2, tail_eq]
              conv_rhs => rw [if_neg (fun hc => hp hc.2.2), if_neg (fun hc => hf hc.2.2)]
        · have h2 : attack_step_template inp ([], 0, none) = ([], 0, none) := by
            simp [attack_step_template, htl]
          rw [h2, tail_eq]
          conv_rhs => rw [if_neg (fun hc => htl hc.2.1), if_neg (fun hc => htl hc.2.1)]
  · intro bs c hp
    have h1 : str_starts_with "template_roi" "template" = true := by decide
    have h2 : str_starts_with "template" "template" = true := by decide
    have h3 : str_starts_with "ocr_context" "template" = false := by decide
    have h4 : str_starts_with "ocr_context" "ocr" = true := by decide
    have h5 : str_starts_with "ocr_panel" "template" = false := by decide
    have h6 : str_starts_with "ocr_panel" "ocr" = true := by decide
    have h7 : str_starts_with "ocr_global" "template" = false := by decide
    have h8 : str_starts_with "ocr_global" "ocr" = true := by decide
    refine ⟨?_, ?_, ?_, ?_, ?_⟩ <;>
      cases bs <;>
      simp [attack_calib_report, h1, h2, h3, h4, h5, h6, h7, h8]

theorem fuse_fst_enable (s : CtrlState) (now : ℚ) (raw : List Box) (c0 : ℚ)
    (pb : List Box) (pc : ℚ) :
    (fuse s now raw c0 pb pc).1.enable_tile_tracker = s.enable_tile_tracker := by
  simp only [fuse]
  split <;> rfl

theorem fuse_fst_state (s : CtrlState) (now : ℚ) (raw : List Box) (c0 : ℚ)
    (pb : List Box) (pc : ℚ) :
    (fuse s now raw c0 pb pc).1.state = s.state := by
  simp only [fuse]
  split <;> rfl

theorem advance_fst_enable (st : CtrlState) (i : AdvIn) :
    (advance_state st i).1.enable_tile_tracker = st.enable_tile_tracker := by
  cases hst : st.state <;>
    simp [advance_state, transitionTo, hst] <;>
    split_ifs <;> simp

theorem advance_state_scan_prime (st : CtrlState) (i : AdvIn)
    (hatk : i.attack_boxes = false)
    (h : st.state = CState.scan ∨ st.state = CState.primeTarget) :
    (advance_state st i).1.state = CState.scan ∨
    (advance_state st i).1.state = CState.primeTarget := by
  rcases h with h | h <;>
    simp [advance_state, transitionTo, h, hatk] <;>
    split_ifs <;> simp_all

theorem advance_emits_prime (st : CtrlState) (i : AdvIn)
    (hatk : i.attack_boxes = false)
    (h : st.state = CState.scan ∨ st.state = CState.primeTarget) :
    (advance_state st i).2 = [] ∨
    (advance_state st i).2 = [Emit.click "prime_nameplate"] := by
  rcases h with h | h <;>
    simp [advance_state, transitionTo, h, hatk] <;>
    split_ifs <;> simp

theorem plan_clicks_no_attack (o : ℤ × ℤ) (r : Bool) (bs : List Box) :
    ∀ p ∈ plan_clicks o r bs [], p.label = "prime_nameplate" := by
  intro p hp
  simp only [plan_clicks] at hp
  split_ifs at hp <;> simp_all [prime_click]

theorem process_frame_step (s : CtrlState) (f : FrameIn)
    (hflag : s.enable_tile_tracker = false)
    (hstate : s.state = CState.scan ∨ s.state = CState.primeTarget) :
    (process_frame s f).1.enable_tile_tracker = false ∧
    ((process_frame s f).1.state = CState.scan ∨
      (process_frame s f).1.state = CState.primeTarget) ∧
    frame_out_ok (process_frame s f).2 = true := by
  have hs1e :
      (fuse s f.now (nameplate_raw s f) (nameplate_conf0 s f)
        (frame_pfx_boxes s f) (frame_pfx_conf s f)).1.enable_tile_tracker = false := by
    rw [fuse_fst_enable]; exact hflag
  have hs1s :
      (fuse s f.now (nameplate_raw s f) (nameplate_conf0 s f)
        (frame_pfx_boxes s f) (frame_pfx_conf s f)).1.state = s.state :=
    fuse_fst_state s f.now (nameplate_raw s f) (nameplate_conf0 s f)
      (frame_pfx_boxes s f) (frame_pfx_conf s f)
  have hhit :
      frame_attack_hit
        (fuse s f.now (nameplate_raw s f) (nameplate_conf0 s f)
          (frame_pfx_boxes s f) (frame_pfx_conf s f)).1 f = ([], 0, none) := by
    simp [frame_attack_hit, hs1e]
  have hadvin : (frame_adv_in s f).attack_boxes = false := by
    simp [frame_adv_in, hhit]
  refine ⟨?_, ?_, ?_⟩
  · show (advance_state
        (fuse s f.now (nameplate_raw s f) (nameplate_conf0 s f)
          (frame_pfx_boxes s f) (frame_pfx_conf s f)).1
        (frame_adv_in s f)).1.enable_tile_tracker = false
    rw [advance_fst_enable]
    exact hs1e
  · show (advance_state
        (fuse s f.now (nameplate_raw s f) (nameplate_conf0 s f)
          (frame_pfx_boxes s f) (frame_pfx_conf s f)).1
        (frame_adv_in s f)).1.state = CState.scan ∨
      (advance_state
        (fuse s f.now (nameplate_raw s f) (nameplate_conf0 s f)
          (frame_pfx_boxes s f) (frame_pfx_conf s f)).1
        (frame_adv_in s f)).1.state = CState.primeTarget
    apply advance_state_scan_prime _ _ hadvin
    rw [hs1s]
    exact hstate
  · have hob : (process_frame s f).2.attack_boxes = [] := by
      show (frame_attack_hit
        (fuse s f.now (nameplate_raw s f) (nameplate_conf0 s f)
          (frame_pfx_boxes s f) (frame_pfx_conf s f)).1 f).1 = []
      rw [hhit]
    have hof : (process_frame s f).2.attack_found = false := by
      show decide ((frame_attack_hit
        (fuse s f.now (nameplate_raw s f) (nameplate_conf0 s f)
          (frame_pfx_boxes s f) (frame_pfx_conf s f)).1 f).1 ≠ []) = false
      rw [hhit]
      simp
    have hos : (process_frame s f).2.attack_source = none := by
      show (frame_attack_hit
        (fuse s f.now (nameplate_raw s f) (nameplate_conf0 s f)
          (frame_pfx_boxes s f) (frame_pfx_conf s f)).1 f).2.2 = none
      rw [hhit]
    have hpl : (process_frame s f).2.planned_clicks =
        plan_clicks f.roi_origin
          (fuse s f.now (nameplate_raw s f) (nameplate_conf0 s f)
            (frame_pfx_boxes s f) (frame_pfx_conf s f)).2.2.2.2
          (fuse s f.now (nameplate_raw s f) (nameplate_conf0 s f)
            (frame_pfx_boxes s f) (frame_pfx_conf s f)).2.1
          (frame_attack_hit
            (fuse s f.now (nameplate_raw s f) (nameplate_conf0 s f)
              (frame_pfx_boxes s f) (frame_pfx_conf s f)).1 f).1 := rfl
    have hem : (process_frame s f).2.emits =
        (advance_state
          (fuse s f.now (nameplate_raw s f) (nameplate_conf0 s f)
            (frame_pfx_boxes s f) (frame_pfx_conf s f)).1
          (frame_adv_in s f)).2 := rfl
    have hpl2 : (process_frame s f).2.planned_clicks =
        plan_clicks f.roi_origin
          (fuse s f.now (nameplate_raw s f) (nameplate_conf0 s f)
            (frame_pfx_boxes s f) (frame_pfx_conf s f)).2.2.2.2
          (fuse s f.now (nameplate_raw s f) (nameplate_conf0 s f)
            (frame_pfx_boxes s f) (frame_pfx_conf s f)).2.1 [] := by
      rw [hpl, hhit]
    have hemits := advance_emits_prime
      (fuse s f.now (nameplate_raw s f) (nameplate_conf0 s f)
        (frame_pfx_boxes s f) (frame_pfx_conf s f)).1
      (frame_adv_in s f) hadvin (by rw [hs1s]; exact hstate)
    have hplanned := plan_clicks_no_attack f.roi_origin
      (fuse s f.now (nameplate_raw s f) (nameplate_conf0 s f)
        (frame_pfx_boxes s f) (frame_pfx_conf s f)).2.2.2.2
      (fuse s f.now (nameplate_raw s f) (nameplate_conf0 s f)
        (frame_pfx_boxes s f) (frame_pfx_conf s f)).2.1
    unfold frame_out_ok
    rw [hob, hof, hos, hpl2, hem]
    rcases hemits with he | he <;>
      rw [he] <;>
      simp [List.all_eq_true] <;>
      intro p hp <;>
      simp [hplanned p hp]

theorem run_frames_tracker_off (frames : List FrameIn) :
    ∀ s : CtrlState,
      s.enable_tile_tracker = false →
      (s.state = CState.scan ∨ s.state = CState.primeTarget) →
      (run_frames s frames).1.enable_tile_tracker = false ∧
      ((run_frames s frames).1.state = CState.scan ∨
        (run_frames s frames).1.state = CState.primeTarget) ∧
      (run_frames s frames).2.all frame_out_ok = true := by
  induction frames with
  | nil => exact fun s h1 h2 => ⟨h1, h2, rfl⟩
  | cons f fs ih =>
    intro s h1 h2
    obtain ⟨g1, g2, g3⟩ := process_frame_step s f h1 h2
    obtain ⟨i1, i2, i3⟩ := ih (process_frame s f).1 g1 g2
    have hrun : run_frames s (f :: fs) =
        ((run_frames (process_frame s f).1 fs).1,
         (process_frame s f).2 :: (run_frames (process_frame s f).1 fs).2) := rfl
    rw [hrun]
    exact ⟨i1, i2, by simp [List.all_cons, g3, i3]⟩

/-- C10: for every controller as constructed (the tile-tracker enable flag is
initialised to False and no code path sets it true) and every frame sequence,
the attack resolution never produces anything — the attack result reports
found=false with no boxes and no source, no attack-button click is ever
planned or emitted — and every reachable machine state is Scan or
PrimeTarget. -/
theorem tracker_disabled_invariant :
    ∀ (pw tps : Bool) (atp : Option String) (m : Method) (frames : List FrameIn),
      ((run_frames (CtrlState.init pw tps atp m) frames).1.state = CState.scan ∨
        (run_frames (CtrlState.init pw tps atp m) frames).1.state = CState.primeTarget) ∧
      (run_frames (CtrlState.init pw tps atp m) frames).1.enable_tile_tracker = false ∧
      (run_frames (CtrlState.init pw tps atp m) frames).2.all frame_out_ok = true := by
  intro pw tps atp m frames
  obtain ⟨a, b, c⟩ :=
    run_frames_tracker_off frames (CtrlState.init pw tps atp m) rfl (Or.inl rfl)
  exact ⟨b, a, c⟩

end Combat

namespace Tracking

/-- C9 counterexample: on a 32-px grid, displacing tile (0,0)'s top-left
corner by a jitter of magnitude 0.5 px — less than one pixel — in the
negative direction makes `screen_to_tile` return (-1,-1), not (0,0): the
claimed round trip fails for negative sub-pixel jitter. -/
theorem tile_round_trip_counterexample :
    grid32.screen_to_tile ((grid32.tile_to_screen 0 0).1 + (-(1:ℚ)/2))
        ((grid32.tile_to_screen 0 0).2 + (-(1:ℚ)/2)) = (-1, -1) ∧
    |(-(1:ℚ)/2)| < 1 := by
  constructor
  · norm_num [grid32, TileGrid.screen_to_tile, TileGrid.tile_to_screen]
  · rw [abs_lt]
    constructor <;> norm_num

/-- C9 amended: the round trip `screen_to_tile (tile_to_screen (row,col) +
jitter) = (row,col)` holds exactly for jitter components in
`[0, tile_size)` — in particular for any non-negative jitter below one pixel
whenever the tile size is at least one pixel; negative jitter (or jitter
reaching the tile size) breaks it. -/
theorem tile_round_trip (g : TileGrid) (row col : ℤ) (jx jy : ℚ)
    (hx0 : 0 ≤ jx) (hx1 : jx < g.tile_size)
    (hy0 : 0 ≤ jy) (hy1 : jy < g.tile_size) :
    g.screen_to_tile ((g.tile_to_screen row col).1 + jx)
      ((g.tile_to_screen row col).2 + jy) = (row, col) := by
  have key : ∀ (a b : ℚ) (k : ℤ) (j : ℚ), 0 ≤ j → j < g.tile_size →
      ⌊(a + b + (k : ℚ) * g.tile_size + j - a - b) / g.tile_size⌋ = k := by
    intro a b k j h0 h1
    have hts : 0 < g.tile_size := lt_of_le_of_lt h0 h1
    have h2 : a + b + (k : ℚ) * g.tile_size + j - a - b =
        (k : ℚ) * g.tile_size + j := by ring
    rw [h2, add_div, mul_div_cancel_right₀ _ (ne_of_gt hts), Int.floor_int_add]
    have h3 : ⌊j / g.tile_size⌋ = 0 := by
      rw [Int.floor_eq_zero_iff]
      exact Set.mem_Ico.mpr ⟨div_nonneg h0 hts.le, (div_lt_one hts).mpr h1⟩
    rw [h3, add_zero]
  unfold TileGrid.screen_to_tile TileGrid.tile_to_screen
  rw [Prod.mk.injEq]
  exact ⟨key _ _ row jy hy0 hy1, key _ _ col jx hx0 hx1⟩

theorem tile_round_trip_witness :
    grid32.screen_to_tile ((grid32.tile_to_screen 2 3).1 + 4/10)
      ((grid32.tile_to_screen 2 3).2 + 6/10) = (2, 3) :=
  tile_round_trip grid32 2 3 (4/10) (6/10) (by norm_num) (by norm_num [grid32])
    (by norm_num) (by norm_num [grid32])

end Tracking

end GameBot
